import Mathlib

/-!
Shallow embedding of `src/delay/timer.rs` from the stm32f4xx-hal repository:
a blocking delay provider built on a 32-bit general-purpose timer (TIM2/TIM5).
The macro-generated code is modelled once, generically.  Machine integers are
`Nat` with explicit `% 2^32` where Rust wrapping semantics matter; Rust panics
(`assert!`, `.expect`) are modelled as `Except` errors.
-/

/-- Model of the timer control register CR1: the one-pulse-mode bit (OPM),
the counter-enable bit (CEN), the update-request-source bit (URS), and the
remaining bits of the register collapsed into a single `rest` field so that
whole-register writes versus read-modify-writes can be distinguished. -/
structure Cr1 where
  opm : Bool
  cen : Bool
  urs : Bool
  rest : Nat
deriving DecidableEq

/-- Model of the architectural timer registers touched by the driver: the
16-bit prescaler PSC, the 32-bit auto-reload register ARR, the counter CNT,
and the control register CR1. -/
structure TimerState where
  psc : Nat
  arr : Nat
  cnt : Nat
  cr1 : Cr1
deriving DecidableEq

/-- One register operation performed by the arm portion of the wait routine
(`wait_tim2` / `wait_tim5` in the source), in source order:
`tim.psc.write`, `tim.arr.write`, `tim.cr1.modify(urs().set_bit())`,
`tim.egr.write(ug().set_bit())`, `tim.cr1.modify(urs().clear_bit())`,
`tim.cr1.write(opm().set_bit().cen().set_bit())`. -/
inductive Event where
  | writePSC (v : Nat)
  | writeARR (v : Nat)
  | setURS
  | forceUpdate
  | clearURS
  | writeCR1OpmCen
deriving DecidableEq

/-- Effect of one register operation on the timer state.  `writeCR1OpmCen`
is a whole-register write (`cr1.write`), so it resets every other CR1 bit;
the URS operations are read-modify-writes (`cr1.modify`) and keep the rest.
`forceUpdate` models the UG-triggered update event reinitialising the
counter (the shadow-register transfer is implicit: `psc`/`arr` writes take
effect directly in this model). -/
def applyEvent (s : TimerState) : Event → TimerState
  | .writePSC v => { s with psc := v }
  | .writeARR v => { s with arr := v }
  | .setURS => { s with cr1 := { s.cr1 with urs := true } }
  | .forceUpdate => { s with cnt := 0 }
  | .clearURS => { s with cr1 := { s.cr1 with urs := false } }
  | .writeCR1OpmCen => { s with cr1 := { opm := true, cen := true, urs := false, rest := 0 } }

/-- Run a list of register operations in order. -/
def runEvents (s : TimerState) (es : List Event) : TimerState :=
  es.foldl applyEvent s

/-- The exact sequence of register writes performed by the wait routine
before the spin loop, translated line by line from `$waitfn` in
`src/delay/timer.rs` (lines 26-43): write PSC with the prescaler, write ARR
with `max(1, auto_reload_register)`, set URS, write EGR.UG, clear URS, then
one whole-register CR1 write setting OPM and CEN. -/
def waitfnTrace (prescaler auto_reload_register : Nat) : List Event :=
  [Event.writePSC prescaler,
   Event.writeARR (max 1 auto_reload_register),
   Event.setURS,
   Event.forceUpdate,
   Event.clearURS,
   Event.writeCR1OpmCen]

/-- One hardware clock tick of the counter, modelling the external timer
hardware the spec describes: while CEN is set and ARR is nonzero the counter
counts up; on reaching ARR an update event occurs, which reinitialises the
counter and, in one-pulse mode (OPM set), clears CEN.  A null ARR blocks the
counter, which is why the source floors ARR to 1. -/
def hwTick (s : TimerState) : TimerState :=
  if s.cr1.cen = true then
    if s.arr = 0 then s
    else if s.arr ≤ s.cnt + 1 then
      { s with cnt := 0, cr1 := { s.cr1 with cen := !s.cr1.opm } }
    else { s with cnt := s.cnt + 1 }
  else s

/-- Iterate the hardware tick `k` times. -/
def hwRun : Nat → TimerState → TimerState
  | 0, s => s
  | k + 1, s => hwRun k (hwTick s)

/-- The busy-wait loop `while tim.cr1.read().cen().is_enabled() {}` from the
source, made total with a fuel argument: each loop iteration observes CEN and
lets the hardware advance one tick; the loop returns the state exactly when
CEN reads clear, and `none` means the fuel ran out while still counting. -/
def spin : Nat → TimerState → Option TimerState
  | 0, s => if s.cr1.cen = true then none else some s
  | fuel + 1, s => if s.cr1.cen = true then spin fuel (hwTick s) else some s

/-- Reasons the Rust code panics: `.expect("Prescaler does not fit in u16")`
on the checked u32→u16 cast, and `assert!(ms <= 2_147_483_647)` in the
32-bit `delay_ms`. -/
inductive DelayPanic where
  | prescalerOverflow
  | durationTooLarge
deriving DecidableEq

/-- The checked conversion `u16(x)` from the `cast` crate: succeeds exactly
when the value fits in 16 bits. -/
def u16cast (x : Nat) : Option Nat :=
  if x ≤ 65535 then some x else none

/-- `DelayUs<u32>::delay_us` (source lines 82-92): computes the prescaler
`pclk1 / 1_000_000` (panicking if it does not fit in u16) and passes the
microsecond count directly as the auto-reload value.  Returns the
`(prescaler, auto_reload_register)` pair handed to the wait routine. -/
def delay_us_u32 (pclk1 us : Nat) : Except DelayPanic (Nat × Nat) :=
  match u16cast (pclk1 / 1000000) with
  | some psc => .ok (psc, us)
  | none => .error .prescalerOverflow

/-- `DelayUs<u16>::delay_us` (source lines 96-104): identical to the 32-bit
variant after the infallible `u32(us)` widening of the 16-bit input. -/
def delay_us_u16 (pclk1 us : Nat) : Except DelayPanic (Nat × Nat) :=
  match u16cast (pclk1 / 1000000) with
  | some psc => .ok (psc, us)
  | none => .error .prescalerOverflow

/-- `DelayMs<u32>::delay_ms` (source lines 109-132): first
`assert!(ms <= 2_147_483_647)`, then the prescaler `pclk1 / 1000 / 2`
(panicking if it does not fit in u16), then the auto-reload value
`ms << 1`, a u32 shift modelled as `(ms * 2) % 2^32`. -/
def delay_ms_u32 (pclk1 ms : Nat) : Except DelayPanic (Nat × Nat) :=
  if ms ≤ 2147483647 then
    match u16cast (pclk1 / 1000 / 2) with
    | some psc => .ok (psc, ms * 2 % 4294967296)
    | none => .error .prescalerOverflow
  else .error .durationTooLarge

/-- `DelayMs<u16>::delay_ms` (source lines 135-145): no input assertion;
the prescaler `pclk1 / 1000 / 2`, then `u32(ms) << 1` as the auto-reload
value, again a u32 shift modelled as `(ms * 2) % 2^32`. -/
def delay_ms_u16 (pclk1 ms : Nat) : Except DelayPanic (Nat × Nat) :=
  match u16cast (pclk1 / 1000 / 2) with
  | some psc => .ok (psc, ms * 2 % 4294967296)
  | none => .error .prescalerOverflow

/-- The register operations a delay call performs: none at all when the call
panics (both panics precede every register write in the source), otherwise
the full wait-routine sequence for the computed prescaler/reload pair. -/
def eventsOf : Except DelayPanic (Nat × Nat) → List Event
  | .error _ => []
  | .ok (psc, arr) => waitfnTrace psc arr

/-- Running the arm sequence fully determines the timer state, whatever it
held before: PSC gets the prescaler, ARR the floored reload, CNT is
reinitialised by the forced update, and CR1 ends as OPM+CEN with every
other bit cleared by the whole-register write. -/
theorem runEvents_waitfnTrace (p a : Nat) (s : TimerState) :
    runEvents s (waitfnTrace p a) =
      ⟨p, max 1 a, 0, ⟨true, true, false, 0⟩⟩ := rfl

/-- If the spin loop returns, the returned state has CEN clear. -/
theorem spin_cen_of_eq :
    ∀ (fuel : Nat) (s t : TimerState), spin fuel s = some t → t.cr1.cen = false := by
  intro fuel
  induction fuel with
  | zero =>
    intro s t h
    by_cases hc : s.cr1.cen = true
    · simp [spin, hc] at h
    · simp [spin, hc] at h
      subst h
      simpa using hc
  | succ n ih =>
    intro s t h
    by_cases hc : s.cr1.cen = true
    · simp [spin, hc] at h
      exact ih _ _ h
    · simp [spin, hc] at h
      subst h
      simpa using hc

/-- If the spin loop returns, the returned state is reached from the start
state by some number of hardware ticks, at every strictly earlier tick CEN
was still observed set, and CEN is clear at the returned state. -/
theorem spin_hwRun_of_eq :
    ∀ (fuel : Nat) (s t : TimerState), spin fuel s = some t →
      ∃ k, t = hwRun k s ∧ ∀ j, j < k → (hwRun j s).cr1.cen = true := by
  intro fuel
  induction fuel with
  | zero =>
    intro s t h
    by_cases hc : s.cr1.cen = true
    · simp [spin, hc] at h
    · simp [spin, hc] at h
      exact ⟨0, h.symm ▸ rfl, by omega⟩
  | succ n ih =>
    intro s t h
    by_cases hc : s.cr1.cen = true
    · simp [spin, hc] at h
      obtain ⟨k, hk, hall⟩ := ih _ _ h
      refine ⟨k + 1, hk, ?_⟩
      intro j hj
      cases j with
      | zero => simpa [hwRun] using hc
      | succ i => exact hall i (by omega)
    · simp [spin, hc] at h
      exact ⟨0, h.symm ▸ rfl, by omega⟩

/-- A hardware tick only ever changes the counter and the CEN bit: PSC, ARR
and the other CR1 bits are untouched. -/
theorem hwTick_frame (s : TimerState) :
    (hwTick s).psc = s.psc ∧ (hwTick s).arr = s.arr ∧
    (hwTick s).cr1.opm = s.cr1.opm ∧ (hwTick s).cr1.urs = s.cr1.urs ∧
    (hwTick s).cr1.rest = s.cr1.rest := by
  unfold hwTick
  split
  · split
    · exact ⟨rfl, rfl, rfl, rfl, rfl⟩
    · split
      · exact ⟨rfl, rfl, rfl, rfl, rfl⟩
      · exact ⟨rfl, rfl, rfl, rfl, rfl⟩
  · exact ⟨rfl, rfl, rfl, rfl, rfl⟩

/-- Iterated hardware ticks preserve PSC, ARR, OPM, URS and the remaining
CR1 bits. -/
theorem hwRun_frame (k : Nat) :
    ∀ s : TimerState,
      (hwRun k s).psc = s.psc ∧ (hwRun k s).arr = s.arr ∧
      (hwRun k s).cr1.opm = s.cr1.opm ∧ (hwRun k s).cr1.urs = s.cr1.urs ∧
      (hwRun k s).cr1.rest = s.cr1.rest := by
  induction k with
  | zero => intro s; exact ⟨rfl, rfl, rfl, rfl, rfl⟩
  | succ n ih =>
    intro s
    obtain ⟨h1, h2, h3, h4, h5⟩ := ih (hwTick s)
    obtain ⟨g1, g2, g3, g4, g5⟩ := hwTick_frame s
    exact ⟨by rw [hwRun, h1, g1], by rw [hwRun, h2, g2],
           by rw [hwRun, h3, g3], by rw [hwRun, h4, g4],
           by rw [hwRun, h5, g5]⟩

/-- Helper: a 32-bit millisecond delay whose prescaler overflows 16 bits
always panics (with one of the two panic reasons, depending on whether the
input assertion fires first) and performs no register write. -/
theorem delay_ms_u32_error_of_psc (f m : Nat) (hf : 65535 < f / 1000 / 2) :
    (∃ e, delay_ms_u32 f m = .error e) ∧ eventsOf (delay_ms_u32 f m) = [] := by
  by_cases hm : m ≤ 2147483647
  · refine ⟨⟨.prescalerOverflow, ?_⟩, ?_⟩ <;>
      simp [delay_ms_u32, u16cast, hm, Nat.not_le.2 hf, eventsOf]
  · refine ⟨⟨.durationTooLarge, ?_⟩, ?_⟩ <;>
      simp [delay_ms_u32, hm, eventsOf]

/-- C1: for every clock frequency `f` with `f / 1000000 ≤ 65535` and every
32-bit microsecond request `u`, `delay_us(u)` programs the prescaler with
`f / 1000000` and the reload register with `max 1 u`; in particular at
`f = 48 MHz`, `delay_us 1000` programs prescaler 48 and reload 1000. -/
theorem delay_us_u32_divider_reload (f u : Nat)
    (hf : f / 1000000 ≤ 65535) (_hu : u ≤ 4294967295) :
    delay_us_u32 f u = .ok (f / 1000000, u) ∧
    (∀ s, runEvents s (eventsOf (delay_us_u32 f u)) =
      ⟨f / 1000000, max 1 u, 0, ⟨true, true, false, 0⟩⟩) ∧
    delay_us_u32 48000000 1000 = .ok (48, 1000) ∧
    (∀ s : TimerState,
      (runEvents s (eventsOf (delay_us_u32 48000000 1000))).psc = 48 ∧
      (runEvents s (eventsOf (delay_us_u32 48000000 1000))).arr = 1000) := by
  have hok : delay_us_u32 f u = .ok (f / 1000000, u) := by
    simp [delay_us_u32, u16cast, hf]
  refine ⟨hok, ?_, by rfl, ?_⟩
  · intro s
    rw [hok]
    exact runEvents_waitfnTrace _ _ _
  · intro s
    exact ⟨rfl, rfl⟩

/-- C2: for every clock frequency `f` with `f / 1000 / 2 ≤ 65535` and every
32-bit millisecond request `m ≤ 2147483647`, `delay_ms(m)` programs the
prescaler with `f / 2000` (to which the code's `f / 1000 / 2` is equal) and
the reload register with `max 1 (2 * m)`; in particular at `f = 48 MHz`,
`delay_ms 100` programs prescaler 24000 and reload 200. -/
theorem delay_ms_u32_divider_reload (f m : Nat)
    (hm : m ≤ 2147483647) (hf : f / 1000 / 2 ≤ 65535) :
    f / 1000 / 2 = f / 2000 ∧
    delay_ms_u32 f m = .ok (f / 2000, 2 * m) ∧
    (∀ s, runEvents s (eventsOf (delay_ms_u32 f m)) =
      ⟨f / 2000, max 1 (2 * m), 0, ⟨true, true, false, 0⟩⟩) ∧
    delay_ms_u32 48000000 100 = .ok (24000, 200) := by
  have hdiv : f / 1000 / 2 = f / 2000 := by
    rw [Nat.div_div_eq_div_mul]
  have hmod : m * 2 % 4294967296 = 2 * m := by omega
  have hok : delay_ms_u32 f m = .ok (f / 2000, 2 * m) := by
    have hok1 : delay_ms_u32 f m = .ok (f / 1000 / 2, 2 * m) := by
      simp [delay_ms_u32, u16cast, hm, hf, hmod]
    rw [hok1, hdiv]
  refine ⟨hdiv, hok, ?_, by rfl⟩
  intro s
  rw [hok]
  exact runEvents_waitfnTrace _ _ _

/-- C3: whenever the computed divider for an operation's tick size exceeds
65535, that operation panics and performs no register write at all (the
event trace is empty, so no partial configuration is armed); in particular
at `f = 150 MHz` the millisecond divider is 75000 and every `delay_ms`
call panics before any write. -/
theorem delay_divider_overflow_no_write (f u m : Nat) :
    (65535 < f / 1000000 →
      delay_us_u32 f u = .error .prescalerOverflow ∧
      eventsOf (delay_us_u32 f u) = [] ∧
      delay_us_u16 f u = .error .prescalerOverflow ∧
      eventsOf (delay_us_u16 f u) = []) ∧
    (65535 < f / 1000 / 2 →
      (∃ e, delay_ms_u32 f m = .error e) ∧
      eventsOf (delay_ms_u32 f m) = [] ∧
      delay_ms_u16 f m = .error .prescalerOverflow ∧
      eventsOf (delay_ms_u16 f m) = []) ∧
    (150000000 / 1000 / 2 = 75000 ∧
      (∃ e, delay_ms_u32 150000000 m = .error e) ∧
      eventsOf (delay_ms_u32 150000000 m) = [] ∧
      delay_ms_u16 150000000 m = .error .prescalerOverflow ∧
      eventsOf (delay_ms_u16 150000000 m) = []) := by
  refine ⟨?_, ?_, ?_⟩
  · intro h
    refine ⟨?_, ?_, ?_, ?_⟩ <;>
      simp [delay_us_u32, delay_us_u16, u16cast, Nat.not_le.2 h, eventsOf]
  · intro h
    obtain ⟨h1, h2⟩ := delay_ms_u32_error_of_psc f m h
    refine ⟨h1, h2, ?_, ?_⟩ <;>
      simp [delay_ms_u16, u16cast, Nat.not_le.2 h, eventsOf]
  · obtain ⟨h1, h2⟩ := delay_ms_u32_error_of_psc 150000000 m (by decide)
    refine ⟨by decide, h1, h2, ?_, ?_⟩ <;>
      simp [delay_ms_u16, u16cast, eventsOf]

/-- C4: the reload register is never programmed with 0: the arm routine
floors every reload value to 1, and each of the four delay operations
called with input 0 programs a reload of exactly 1. -/
theorem reload_never_zero (p a f : Nat)
    (hus : f / 1000000 ≤ 65535) (hms : f / 1000 / 2 ≤ 65535) :
    (∀ s, (runEvents s (waitfnTrace p a)).arr = max 1 a ∧
          (runEvents s (waitfnTrace p a)).arr ≠ 0) ∧
    (∀ s, (runEvents s (eventsOf (delay_us_u32 f 0))).arr = 1) ∧
    (∀ s, (runEvents s (eventsOf (delay_us_u16 f 0))).arr = 1) ∧
    (∀ s, (runEvents s (eventsOf (delay_ms_u32 f 0))).arr = 1) ∧
    (∀ s, (runEvents s (eventsOf (delay_ms_u16 f 0))).arr = 1) := by
  have hu32 : delay_us_u32 f 0 = .ok (f / 1000000, 0) := by
    simp [delay_us_u32, u16cast, hus]
  have hu16 : delay_us_u16 f 0 = .ok (f / 1000000, 0) := by
    simp [delay_us_u16, u16cast, hus]
  have hm32 : delay_ms_u32 f 0 = .ok (f / 1000 / 2, 0) := by
    simp [delay_ms_u32, u16cast, hms]
  have hm16 : delay_ms_u16 f 0 = .ok (f / 1000 / 2, 0) := by
    simp [delay_ms_u16, u16cast, hms]
  refine ⟨?_, ?_, ?_, ?_, ?_⟩
  · intro s
    rw [runEvents_waitfnTrace]
    refine ⟨rfl, ?_⟩
    show max 1 a ≠ 0
    omega
  · intro s; rw [hu32]; rfl
  · intro s; rw [hu16]; rfl
  · intro s; rw [hm32]; rfl
  · intro s; rw [hm16]; rfl

/-- C5: the 32-bit `delay_ms` rejects every input above 2147483647 with the
duration assertion, for every clock frequency (so also when the divider
computation itself would fail), and performs no register write. -/
theorem delay_ms_u32_duration_guard (f ms : Nat) (h : 2147483647 < ms) :
    delay_ms_u32 f ms = .error .durationTooLarge ∧
    eventsOf (delay_ms_u32 f ms) = [] := by
  constructor <;> simp [delay_ms_u32, Nat.not_le.2 h, eventsOf]

/-- C6: the arm-and-wait routine performs exactly the sequence: write the
prescaler, write the reload register with `max 1 reload`, set URS, force one
update event, clear URS, one whole-register CR1 write setting OPM and CEN;
running that sequence yields the armed state, and the final poll returns
only once CEN reads clear. -/
theorem waitfn_sequence (p a : Nat) :
    waitfnTrace p a =
      [Event.writePSC p, Event.writeARR (max 1 a), Event.setURS,
       Event.forceUpdate, Event.clearURS, Event.writeCR1OpmCen] ∧
    (∀ s, runEvents s (waitfnTrace p a) =
      ⟨p, max 1 a, 0, ⟨true, true, false, 0⟩⟩) ∧
    (∀ fuel s t, spin fuel s = some t → t.cr1.cen = false) :=
  ⟨rfl, fun s => runEvents_waitfnTrace p a s,
   fun fuel s t h => spin_cen_of_eq fuel s t h⟩

/-- C7: the 16-bit `delay_ms` computes the doubled reload value without any
32-bit overflow — it is at most 131070, so the `% 2^32` of the u32 shift is
the identity — and the operation succeeds with no input-range guard. -/
theorem delay_ms_u16_no_overflow (f ms : Nat)
    (hms : ms ≤ 65535) (hf : f / 1000 / 2 ≤ 65535) :
    delay_ms_u16 f ms = .ok (f / 1000 / 2, 2 * ms) ∧
    2 * ms ≤ 131070 ∧
    ms * 2 % 4294967296 = 2 * ms := by
  have hmod : ms * 2 % 4294967296 = 2 * ms := by omega
  refine ⟨?_, by omega, hmod⟩
  simp [delay_ms_u16, u16cast, hf, hmod]

/-- C8: whenever the spin loop returns, the returned state has CEN clear,
and it is reached from the start state by hardware ticks with CEN still
observed set at every strictly earlier tick — the return coincides with the
hardware clearing the enable bit. -/
theorem spin_returns_only_idle (fuel : Nat) (s t : TimerState)
    (h : spin fuel s = some t) :
    t.cr1.cen = false ∧
    ∃ k, t = hwRun k s ∧ ∀ j, j < k → (hwRun j s).cr1.cen = true :=
  ⟨spin_cen_of_eq fuel s t h, spin_hwRun_of_eq fuel s t h⟩

/-- C9: arming uses a whole-register CR1 write carrying only OPM and CEN, so
after any delay call's spin loop returns, CR1 holds exactly OPM set, CEN
clear, URS clear and all other bits zero — regardless of the timer state
before the call. -/
theorem delay_cr1_frame (p a fuel : Nat) (s t : TimerState)
    (h : spin fuel (runEvents s (waitfnTrace p a)) = some t) :
    t.cr1 = ⟨true, false, false, 0⟩ := by
  have h0 : runEvents s (waitfnTrace p a) =
      ⟨p, max 1 a, 0, ⟨true, true, false, 0⟩⟩ := runEvents_waitfnTrace p a s
  have hcen : t.cr1.cen = false := spin_cen_of_eq _ _ _ h
  obtain ⟨k, hk, -⟩ := spin_hwRun_of_eq _ _ _ h
  obtain ⟨-, -, hopm, hurs, hrest⟩ := hwRun_frame k (runEvents s (waitfnTrace p a))
  have e1 : t.cr1.opm = true := by rw [hk, hopm, h0]
  have e2 : t.cr1.urs = false := by rw [hk, hurs, h0]
  have e3 : t.cr1.rest = 0 := by rw [hk, hrest, h0]
  have ht : t.cr1 = ⟨t.cr1.opm, t.cr1.cen, t.cr1.urs, t.cr1.rest⟩ := rfl
  rw [ht, e1, e2, e3, hcen]

/-- C10: the 32-bit `delay_ms` guard is exactly tight: for every
`ms ≤ 2147483647` the u32 left shift `ms << 1` equals `2 * ms` with no
wraparound, and the boundary input 2147483647 is accepted and programs
reload 4294967294. -/
theorem delay_ms_u32_guard_tight (f ms : Nat)
    (hms : ms ≤ 2147483647) (hf : f / 1000 / 2 ≤ 65535) :
    ms * 2 % 4294967296 = 2 * ms ∧
    delay_ms_u32 f ms = .ok (f / 1000 / 2, 2 * ms) ∧
    delay_ms_u32 f 2147483647 = .ok (f / 1000 / 2, 4294967294) := by
  have hmod : ms * 2 % 4294967296 = 2 * ms := by omega
  refine ⟨hmod, ?_, ?_⟩
  · simp [delay_ms_u32, u16cast, hms, hf, hmod]
  · norm_num [delay_ms_u32, u16cast, hf]

/-- Witness for C1 at the spec's concrete scenario: 48 MHz clock, 1000 µs. -/
theorem delay_us_u32_divider_reload_witness :
    delay_us_u32 48000000 1000 = .ok (48, 1000) :=
  (delay_us_u32_divider_reload 48000000 1000 (by decide) (by decide)).1

/-- Witness for C2 at the spec's concrete scenario: 48 MHz clock, 100 ms. -/
theorem delay_ms_u32_divider_reload_witness :
    delay_ms_u32 48000000 100 = .ok (24000, 200) :=
  (delay_ms_u32_divider_reload 48000000 100 (by decide) (by decide)).2.2.2

/-- Witness for C3 at a clock frequency whose divider overflows for every
tick size. -/
theorem delay_divider_overflow_no_write_witness :
    delay_us_u32 70000000000 5 = .error .prescalerOverflow ∧
    delay_ms_u16 70000000000 7 = .error .prescalerOverflow :=
  ⟨((delay_divider_overflow_no_write 70000000000 5 7).1 (by decide)).1,
   ((delay_divider_overflow_no_write 70000000000 5 7).2.1 (by decide)).2.2.1⟩

/-- Witness for C4: `delay_us 0` at 48 MHz arms a reload of exactly 1. -/
theorem reload_never_zero_witness :
    (runEvents ⟨0, 0, 0, ⟨false, false, false, 0⟩⟩
      (eventsOf (delay_us_u32 48000000 0))).arr = 1 :=
  (reload_never_zero 0 0 48000000 (by decide) (by decide)).2.1
    ⟨0, 0, 0, ⟨false, false, false, 0⟩⟩

/-- Witness for C5: the out-of-range input 2147483648 at a 150 MHz clock is
rejected by the duration assertion with no register write. -/
theorem delay_ms_u32_duration_guard_witness :
    delay_ms_u32 150000000 2147483648 = .error .durationTooLarge ∧
    eventsOf (delay_ms_u32 150000000 2147483648) = [] :=
  ⟨(delay_ms_u32_duration_guard 150000000 2147483648 (by decide)).1,
   (delay_ms_u32_duration_guard 150000000 2147483648 (by decide)).2⟩

/-- Witness for C6: a concrete armed state with reload 1 finishes its spin
with CEN clear. -/
theorem waitfn_sequence_witness :
    Cr1.cen (TimerState.cr1 ⟨48, 1, 0, ⟨true, false, false, 0⟩⟩) = false :=
  (waitfn_sequence 48 1).2.2 2 ⟨48, 1, 0, ⟨true, true, false, 0⟩⟩
    ⟨48, 1, 0, ⟨true, false, false, 0⟩⟩ rfl

/-- Witness for C7 at the largest 16-bit input. -/
theorem delay_ms_u16_no_overflow_witness :
    delay_ms_u16 48000000 65535 = .ok (48000000 / 1000 / 2, 2 * 65535) :=
  (delay_ms_u16_no_overflow 48000000 65535 (by decide) (by decide)).1

/-- Witness for C8: a concrete two-tick count-down returns with CEN clear. -/
theorem spin_returns_only_idle_witness :
    Cr1.cen (TimerState.cr1 ⟨48, 2, 0, ⟨true, false, false, 0⟩⟩) = false :=
  (spin_returns_only_idle 3 ⟨48, 2, 0, ⟨true, true, false, 0⟩⟩
    ⟨48, 2, 0, ⟨true, false, false, 0⟩⟩ rfl).1

/-- Witness for C9: starting from a dirty control register, a full arm and
wait leaves CR1 holding exactly OPM set and everything else clear. -/
theorem delay_cr1_frame_witness :
    TimerState.cr1 ⟨1, 1, 0, ⟨true, false, false, 0⟩⟩ =
      (⟨true, false, false, 0⟩ : Cr1) :=
  delay_cr1_frame 1 1 2 ⟨0, 0, 0, ⟨false, false, true, 5⟩⟩
    ⟨1, 1, 0, ⟨true, false, false, 0⟩⟩ rfl

/-- Witness for C10 at the boundary input 2147483647. -/
theorem delay_ms_u32_guard_tight_witness :
    2147483647 * 2 % 4294967296 = 2 * 2147483647 ∧
    delay_ms_u32 48000000 2147483647 = .ok (48000000 / 1000 / 2, 4294967294) :=
  ⟨(delay_ms_u32_guard_tight 48000000 2147483647 (by decide) (by decide)).1,
   (delay_ms_u32_guard_tight 48000000 2147483647 (by decide) (by decide)).2.2⟩
